import Mathlib

/-!
Shallow embedding of `src/main.py`, a FastAPI backend that stores phone-number
records in a single MongoDB collection and exposes list/search, create (single
and bulk), update, delete and CSV-export endpoints.

Pure request/response data is modelled with Lean structures; the document store
is an explicit state type threaded through each handler; machine effects
(raised `HTTPException`s, uncaught validation exceptions) are modelled with
`Except`.  The repository's `database.py` and `schemas.py` modules are imported
by `main.py` but absent from the source tree, so their behaviour is modelled
from the spec where noted.
-/

/-- Documents of the `phonenumber` collection as they live in the store.  The
store-assigned identifier `oid` (the `_id` key) is always present; every other
key may be absent from a document, which `Option` captures (`none` = key
missing).  Timestamps are modelled as natural numbers. -/
structure PhoneDoc where
  oid : String
  phone : Option String
  country : Option String
  status : Option String
  note : Option String
  created_at : Option Nat
  updated_at : Option Nat
deriving DecidableEq, Repr

/-- Modelled from the spec: the document store behind `database.py` (absent
from the source tree).  `docs` is the collection in the store's natural order;
`nextId` feeds the store-assigned unique identifiers. -/
structure Store where
  docs : List PhoneDoc
  nextId : Nat
deriving DecidableEq, Repr

/-- Request shape for create (class `PhoneIn` of main.py): `phone` required,
`country` and `note` optional, `status` a string that shape validation has
already constrained to the four enum values. -/
structure PhoneIn where
  phone : String
  country : Option String
  status : String
  note : Option String
deriving DecidableEq, Repr

/-- Request shape for partial update (class `PhoneUpdate` of main.py): every
field optional, defaulting to `None`. -/
structure PhoneUpdate where
  phone : Option String
  country : Option String
  status : Option String
  note : Option String
deriving DecidableEq, Repr

/-- Errors surfaced by a handler: `httpException code detail` models a raised
`HTTPException`; `validationError` models an uncaught pydantic validation
exception escaping the handler (which FastAPI surfaces as a server error). -/
inductive ApiError where
  | httpException (statusCode : Nat) (detail : String)
  | validationError
deriving DecidableEq, Repr

/-- Modelled from the spec: one atom of the `$regex` pattern language (PCRE)
used by MongoDB, restricted to the quantifier-free fragment this development
needs — literal characters and the `.` wildcard. -/
inductive RAtom where
  | lit (c : Char)
  | dot
deriving DecidableEq, Repr

/-- Characters that PCRE treats specially outside a character class. -/
def isRegexMeta (c : Char) : Bool :=
  c == '.' || c == '\\' || c == '*' || c == '+' || c == '?' || c == '[' ||
    c == ']' || c == '(' || c == ')' || c == '\x7b' || c == '\x7d' ||
    c == '|' || c == '^' || c == '$'

/-- Modelled from the spec: parsing a `$regex` pattern into atoms.  Literal
characters and `.` are interpreted; a backslash escapes the following
punctuation character; any construct outside this fragment (quantifiers,
classes, groups, anchors, alternation, letter/digit escapes) yields `none`. -/
def parsePattern : List Char → Option (List RAtom)
  | [] => some []
  | c :: cs =>
    if c = '\\' then
      match cs with
      | [] => none
      | e :: rest =>
        if e.isAlphanum then none
        else (parsePattern rest).map (fun as => RAtom.lit e :: as)
    else if c = '.' then (parsePattern cs).map (fun as => RAtom.dot :: as)
    else if isRegexMeta c then none
    else (parsePattern cs).map (fun as => RAtom.lit c :: as)

/-- Does one atom match one character? -/
def atomMatches : RAtom → Char → Bool
  | RAtom.lit c, d => c == d
  | RAtom.dot, _ => true

/-- Does the atom sequence match a prefix of the character list? -/
def matchHere : List RAtom → List Char → Bool
  | [], _ => true
  | _ :: _, [] => false
  | a :: p, c :: s => atomMatches a c && matchHere p s

/-- Unanchored search: does the atom sequence match starting at some position
of the character list?  This is the matching mode of a bare `$regex`. -/
def searchR (p : List RAtom) : List Char → Bool
  | [] => p.isEmpty
  | c :: s => matchHere p (c :: s) || searchR p s

/-- Lower-case the literal atoms of a pattern. -/
def RAtom.lower : RAtom → RAtom
  | RAtom.lit c => RAtom.lit c.toLower
  | RAtom.dot => RAtom.dot

/-- Modelled from the spec: case-insensitive `$regex` match (option `i`) of
pattern `pat` against string value `s` — both sides lowered, the parsed
pattern searched for at every position.  Patterns outside the modelled
fragment are conservatively treated as non-matching. -/
def regexSearchCI (pat s : String) : Bool :=
  match parsePattern pat.data with
  | some p => searchR (p.map RAtom.lower) (s.data.map Char.toLower)
  | none => false

/-- One `$regex` field condition of the `$or` clause: a document whose field is
missing never matches the condition. -/
def fieldRegexMatches (pat : String) : Option String → Bool
  | none => false
  | some s => regexSearchCI pat s

/-- The filter document built by `list_phones` and `export_phones`: a present
`status` means an exact-match condition on the status key; a present `orRegex`
means the three-way `$or` of case-insensitive regex conditions on phone, note
and country. -/
structure MongoFilter where
  status : Option String
  orRegex : Option String
deriving DecidableEq, Repr

/-- Python truthiness of an optional string parameter: `None` and the empty
string are both falsy. -/
def truthyOpt : Option String → Bool
  | none => false
  | some s => !(s == "")

/-- Filter construction of main.py lines 83-92 and 165-173: start from the
empty filter, add the status condition when `status` is truthy, add the `$or`
regex clause when `q` is truthy. -/
def buildFilter (status q : Option String) : MongoFilter :=
  { status := if truthyOpt status then status else none,
    orRegex := if truthyOpt q then q else none }

/-- Modelled from the spec: which documents a filter selects.  The status
condition is an exact equality test on the document's status field; the `$or`
clause matches when any of phone, note, country matches the case-insensitive
regex. -/
def filterMatches (flt : MongoFilter) (d : PhoneDoc) : Bool :=
  (match flt.status with
   | none => true
   | some s => d.status == some s) &&
  (match flt.orRegex with
   | none => true
   | some pat =>
     fieldRegexMatches pat d.phone || fieldRegexMatches pat d.note ||
       fieldRegexMatches pat d.country)

/-- Modelled from the spec: `get_documents` of database.py (absent from the
source tree) returns the matching documents in the store's natural order,
truncated to `limit`. -/
def get_documents (st : Store) (flt : MongoFilter) (limit : Nat) : List PhoneDoc :=
  (st.docs.filter (filterMatches flt)).take limit

/-- The document inserted for a candidate record: the store-assigned id,
`created_at` set at insert, no `updated_at` yet. -/
def docOfPhoneIn (oid : String) (item : PhoneIn) (now : Nat) : PhoneDoc :=
  { oid := oid, phone := some item.phone, country := item.country,
    status := some item.status, note := item.note,
    created_at := some now, updated_at := none }

/-- Modelled from the spec: `create_document` of database.py (absent from the
source tree) appends the new document under a fresh store-assigned id and
returns that id. -/
def create_document (st : Store) (item : PhoneIn) (now : Nat) : String × Store :=
  let oid := toString st.nextId
  (oid, { docs := st.docs ++ [docOfPhoneIn oid item now], nextId := st.nextId + 1 })

/-- Modelled from the spec: the strings accepted by `bson.ObjectId` — exactly
the 24-character hexadecimal strings; anything else raises `InvalidId`. -/
def isValidObjectId (s : String) : Bool :=
  s.length == 24 && s.data.all (fun c =>
    c.isDigit || ('a' ≤ c && c ≤ 'f') || ('A' ≤ c && c ≤ 'F'))

/-- Output shaping of one listed document (main.py lines 96-101): the `_id`
key is popped into a string `id` field.  Timestamps are passed through; their
ISO-8601 rendering is an injective formatting no claim depends on, so it is
not modelled. -/
structure PhoneItemOut where
  id : String
  phone : Option String
  country : Option String
  status : Option String
  note : Option String
  created_at : Option Nat
  updated_at : Option Nat
deriving DecidableEq, Repr

/-- Response shaping applied to each document returned by the listing. -/
def toItemOut (d : PhoneDoc) : PhoneItemOut :=
  { id := d.oid, phone := d.phone, country := d.country, status := d.status,
    note := d.note, created_at := d.created_at, updated_at := d.updated_at }

/-- GET /phones (main.py lines 74-102): check the store handle, build the
filter from `status` and `q`, fetch up to `limit` documents, shape the
output. -/
def list_phones (db : Option Store) (status q : Option String) (limit : Nat) :
    Except ApiError (List PhoneItemOut) :=
  match db with
  | none => Except.error (ApiError.httpException 500 "Database not available")
  | some st =>
    Except.ok ((get_documents st (buildFilter status q) limit).map toItemOut)

/-- POST /phones (main.py lines 104-111): check the store handle, revalidate
the candidate against the insert-time schema, then insert and return the new
id.  `PhoneNumberSchema` of schemas.py is absent from the source tree, so the
insert-time validation is abstracted as the predicate `schemaValid`; a failed
validation raises, surfacing as `validationError` with no insertion. -/
def add_phone (db : Option Store) (schemaValid : PhoneIn → Bool) (item : PhoneIn)
    (now : Nat) : Except ApiError (String × Store) :=
  match db with
  | none => Except.error (ApiError.httpException 500 "Database not available")
  | some st =>
    if schemaValid item then
      Except.ok (create_document st item now)
    else
      Except.error ApiError.validationError

/-- The per-item loop of POST /phones/bulk (main.py lines 117-125): validate
and insert each item, skipping any item whose validation or insertion fails
(the predicate `schemaValid` abstracts both failure sources), accumulating the
assigned ids in order. -/
def bulkLoop (schemaValid : PhoneIn → Bool) (now : Nat) :
    List PhoneIn → Store → List String × Store
  | [], st => ([], st)
  | item :: rest, st =>
    if schemaValid item then
      let r := create_document st item now
      let t := bulkLoop schemaValid now rest r.2
      (r.1 :: t.1, t.2)
    else
      bulkLoop schemaValid now rest st

/-- POST /phones/bulk (main.py lines 113-126): check the store handle, run the
best-effort per-item loop and return the inserted ids with their count. -/
def add_phones_bulk (db : Option Store) (schemaValid : PhoneIn → Bool)
    (items : List PhoneIn) (now : Nat) :
    Except ApiError ((List String × Nat) × Store) :=
  match db with
  | none => Except.error (ApiError.httpException 500 "Database not available")
  | some st =>
    let r := bulkLoop schemaValid now items st
    Except.ok ((r.1, r.1.length), r.2)

/-- The update document passed to `$set`: a key is present exactly when the
`Option` is `some`. -/
structure UpdateDoc where
  phone : Option String
  country : Option String
  status : Option String
  note : Option String
  updated_at : Option Nat
deriving DecidableEq, Repr

/-- Modelled from the spec: applying a `$set` document to one stored document —
every key present in the update document overwrites that field, absent keys
leave the field unchanged. -/
def applySet (u : UpdateDoc) (d : PhoneDoc) : PhoneDoc :=
  { oid := d.oid,
    phone := match u.phone with | some v => some v | none => d.phone,
    country := match u.country with | some v => some v | none => d.country,
    status := match u.status with | some v => some v | none => d.status,
    note := match u.note with | some v => some v | none => d.note,
    created_at := d.created_at,
    updated_at := match u.updated_at with | some v => some v | none => d.updated_at }

/-- Modelled from the spec: `update_one` on the documents list — rewrite the
first document whose id matches, counting it as modified exactly when the
write changed it. -/
def updateFirst (oid : String) (u : UpdateDoc) : List PhoneDoc → Nat × List PhoneDoc
  | [] => (0, [])
  | d :: ds =>
    if d.oid = oid then
      (if applySet u d = d then 0 else 1, applySet u d :: ds)
    else
      let t := updateFirst oid u ds
      (t.1, d :: t.2)

/-- Is the effective update set non-empty (main.py line 139)?  `model_dump`
with `exclude_none` keeps exactly the fields that are not `None`. -/
def hasUpdateFields (data : PhoneUpdate) : Bool :=
  data.phone.isSome || data.country.isSome || data.status.isSome || data.note.isSome

/-- The `$set` document of the non-empty update path: the supplied fields plus
`updated_at` set to the current time (main.py line 142). -/
def updateDocOf (data : PhoneUpdate) (now : Nat) : UpdateDoc :=
  { phone := data.phone, country := data.country, status := data.status,
    note := data.note, updated_at := some now }

/-- PATCH /phones/:id (main.py lines 128-145): store handle check, ObjectId
availability check, id parse, empty-update early return, else a single
`update_one` carrying the supplied fields and `updated_at`, answering the
store's literal modified count. -/
def update_phone (db : Option Store) (objectIdAvailable : Bool) (item_id : String)
    (data : PhoneUpdate) (now : Nat) : Except ApiError (Nat × Store) :=
  match db with
  | none => Except.error (ApiError.httpException 500 "Database not available")
  | some st =>
    if !objectIdAvailable then
      Except.error (ApiError.httpException 500 "ObjectId not available")
    else if !isValidObjectId item_id then
      Except.error (ApiError.httpException 400 "Invalid id")
    else if !hasUpdateFields data then
      Except.ok (0, st)
    else
      let t := updateFirst item_id (updateDocOf data now) st.docs
      Except.ok (t.1, { docs := t.2, nextId := st.nextId })

/-- Modelled from the spec: `delete_one` on the documents list — remove the
first document whose id matches, reporting how many (0 or 1) were removed. -/
def deleteFirst (oid : String) : List PhoneDoc → Nat × List PhoneDoc
  | [] => (0, [])
  | d :: ds =>
    if d.oid = oid then (1, ds)
    else
      let t := deleteFirst oid ds
      (t.1, d :: t.2)

/-- DELETE /phones/:id (main.py lines 147-159): the same guard sequence as the
update, then a single `delete_one`, answering the store's deleted count. -/
def delete_phone (db : Option Store) (objectIdAvailable : Bool) (item_id : String) :
    Except ApiError (Nat × Store) :=
  match db with
  | none => Except.error (ApiError.httpException 500 "Database not available")
  | some st =>
    if !objectIdAvailable then
      Except.error (ApiError.httpException 500 "ObjectId not available")
    else if !isValidObjectId item_id then
      Except.error (ApiError.httpException 400 "Invalid id")
    else
      let t := deleteFirst item_id st.docs
      Except.ok (t.1, { docs := t.2, nextId := st.nextId })

/-- Modelled from the spec: Python csv default quoting (QUOTE_MINIMAL) — a
field is quoted exactly when it contains the delimiter, the quote character or
a line-break character. -/
def csvNeedsQuote (s : String) : Bool :=
  s.data.any (fun c => c == ',' || c == '"' || c == '\r' || c == '\n')

/-- Double every embedded quote character. -/
def csvEscape (s : String) : String :=
  String.mk (s.data.flatMap (fun c => if c == '"' then ['"', '"'] else [c]))

/-- Render one cell: quoted with doubled quotes when needed, verbatim
otherwise. -/
def csvField (s : String) : String :=
  if csvNeedsQuote s then "\"" ++ csvEscape s ++ "\"" else s

/-- Join rendered cells with the comma delimiter. -/
def csvJoin : List String → String
  | [] => ""
  | [f] => csvField f
  | f :: rest => csvField f ++ "," ++ csvJoin rest

/-- Modelled from the spec: one row written by `csv.DictWriter` with the
default dialect — comma separated, CRLF terminated. -/
def csvRow (fields : List String) : String :=
  csvJoin fields ++ "\r\n"

/-- The four cells of one export row (main.py lines 182-187): missing fields
render as the empty string. -/
def exportCells (d : PhoneDoc) : List String :=
  [d.phone.getD "", d.country.getD "", d.status.getD "", d.note.getD ""]

/-- GET /phones/export (main.py lines 161-188): the same filter construction
as the listing, a find with no limit, then the CSV built from its fixed header
and one row per matching document. -/
def export_phones (db : Option Store) (status q : Option String) :
    Except ApiError String :=
  match db with
  | none => Except.error (ApiError.httpException 500 "Database not available")
  | some st =>
    let rows := st.docs.filter (filterMatches (buildFilter status q))
    Except.ok (csvRow ["phone", "country", "status", "note"] ++
      String.join (rows.map (fun r => csvRow (exportCells r))))

/-- A JSON body field as the HTTP layer sees it before shape validation:
distinguishes an absent key, an explicit null and a value. -/
inductive JsonField (α : Type) where
  | absent
  | null
  | val (a : α)
deriving DecidableEq, Repr

/-- The raw PATCH body: each updatable field absent, null or present. -/
structure PhoneUpdateBody where
  phone : JsonField String
  country : JsonField String
  status : JsonField String
  note : JsonField String
deriving DecidableEq, Repr

/-- How pydantic binds one optional field with default `None`: an absent key
and an explicit null both land as `None`. -/
def JsonField.toOpt {α : Type} : JsonField α → Option α
  | JsonField.absent => none
  | JsonField.null => none
  | JsonField.val a => some a

/-- Pydantic parse of the PATCH body into `PhoneUpdate` (main.py
lines 34-38). -/
def parsePhoneUpdate (b : PhoneUpdateBody) : PhoneUpdate :=
  { phone := b.phone.toOpt, country := b.country.toOpt,
    status := b.status.toOpt, note := b.note.toOpt }

/-- Stated from the spec's words, for comparison with the code's filter: `q`
occurs case-insensitively as a literal substring of the field value. -/
def ciContains (q s : String) : Bool :=
  decide ((q.data.map Char.toLower) <:+: (s.data.map Char.toLower))

/-- Stated from the spec's words, for comparison with the code's filter: the
free-text criterion as the spec describes it — a case-insensitive substring
test against phone, note and country, combined with OR; a missing field
contributes its empty rendering. -/
def specTextMatch (q : String) (d : PhoneDoc) : Bool :=
  ciContains q (d.phone.getD "") || ciContains q (d.note.getD "") ||
    ciContains q (d.country.getD "")

/-- Stated from the spec's words, for comparison with the code's CSV: one
plain export row — the four cells comma-joined and CRLF-terminated, missing
fields as empty strings. -/
def plainRow (d : PhoneDoc) : String :=
  d.phone.getD "" ++ "," ++ d.country.getD "" ++ "," ++ d.status.getD "" ++
    "," ++ d.note.getD "" ++ "\r\n"

/-- The content of a stored document, forgetting identifier and timestamps. -/
def docContent (d : PhoneDoc) :
    Option String × Option String × Option String × Option String :=
  (d.phone, d.country, d.status, d.note)

/-- The content a candidate record is stored with. -/
def itemContent (i : PhoneIn) :
    Option String × Option String × Option String × Option String :=
  (some i.phone, i.country, some i.status, i.note)

/-- An empty store, used as a concrete test state. -/
def emptyStore : Store := { docs := [], nextId := 0 }

/-- A concrete valid candidate record. -/
def exPhone1 : PhoneIn :=
  { phone := "1", country := none, status := "unknown", note := none }

/-- A concrete candidate record meant to fail the insert-time validation. -/
def exPhoneBad : PhoneIn :=
  { phone := "", country := none, status := "unknown", note := none }

/-- Another concrete valid candidate record. -/
def exPhone3 : PhoneIn :=
  { phone := "3", country := none, status := "unknown", note := none }

/-- A concrete three-item batch whose middle item is invalid. -/
def exItems : List PhoneIn := [exPhone1, exPhoneBad, exPhone3]

/-- A concrete validator rejecting records with an empty phone string. -/
def exValid : PhoneIn → Bool := fun j => !(j.phone == "")

/-- A concrete well-formed store identifier (24 hexadecimal characters). -/
def exOid : String := "507f1f77bcf86cd799439011"

/-- A concrete stored record carrying an `updated_at` value. -/
def exDoc : PhoneDoc :=
  { oid := exOid, phone := some "1", country := none, status := some "unknown",
    note := none, created_at := some 1, updated_at := some 5 }

/-- A concrete one-record store. -/
def exStore1 : Store := { docs := [exDoc], nextId := 9 }

/-- The update body with no field supplied. -/
def emptyPatch : PhoneUpdate :=
  { phone := none, country := none, status := none, note := none }

/-- An update body supplying only the phone field. -/
def phonePatch : PhoneUpdate :=
  { phone := some "999", country := none, status := none, note := none }

/-- A concrete stored record tagged has_fb, with no note. -/
def exDocFb : PhoneDoc :=
  { oid := "1", phone := some "555-1234", country := some "US",
    status := some "has_fb", note := none, created_at := none,
    updated_at := none }

/-- A concrete stored record tagged no_fb. -/
def exDocNo : PhoneDoc :=
  { oid := "2", phone := some "222", country := none, status := some "no_fb",
    note := some "call later", created_at := none, updated_at := none }

/-- A concrete two-record store with distinct status tags. -/
def exStore2 : Store := { docs := [exDocFb, exDocNo], nextId := 3 }

lemma matchHere_lits (l : List Char) : ∀ s : List Char,
    (matchHere (l.map RAtom.lit) s = true ↔ l <+: s) := by
  induction l with
  | nil => intro s; simp [matchHere, List.nil_prefix]
  | cons a as ih =>
    intro s
    cases s with
    | nil => simp [matchHere]
    | cons b bs =>
      simp [matchHere, atomMatches, List.cons_prefix_cons, ih, beq_iff_eq]

lemma searchR_lits (l : List Char) : ∀ s : List Char,
    (searchR (l.map RAtom.lit) s = true ↔ l <:+: s) := by
  intro s
  induction s with
  | nil =>
    simp [searchR, List.infix_nil, List.isEmpty_iff]
  | cons c cs ih =>
    simp [searchR, matchHere_lits, ih, List.infix_cons_iff]

lemma parsePattern_lits (l : List Char) (h : ∀ c ∈ l, isRegexMeta c = false) :
    parsePattern l = some (l.map RAtom.lit) := by
  induction l with
  | nil => rfl
  | cons c cs ih =>
    have hc : isRegexMeta c = false := h c (by simp)
    have h1 : ¬(c = '\\') := by
      intro he; subst he; simp [isRegexMeta] at hc
    have h2 : ¬(c = '.') := by
      intro he; subst he; simp [isRegexMeta] at hc
    have hrest := ih (fun x hx => h x (List.mem_cons_of_mem _ hx))
    rw [parsePattern.eq_def]
    simp [h1, h2, hc, hrest]

lemma lowerAtoms_lits (l : List Char) :
    List.map (RAtom.lower ∘ RAtom.lit) l = List.map RAtom.lit (List.map Char.toLower l) := by
  rw [List.map_map]
  rfl

lemma ciContains_iff (q s : String) :
    ciContains q s = true ↔ (q.data.map Char.toLower) <:+: (s.data.map Char.toLower) := by
  simp [ciContains]

lemma regexSearchCI_lits (q s : String) (h : ∀ c ∈ q.data, isRegexMeta c = false) :
    regexSearchCI q s = ciContains q s := by
  rw [Bool.eq_iff_iff, ciContains_iff]
  unfold regexSearchCI
  rw [parsePattern_lits q.data h]
  show searchR ((q.data.map RAtom.lit).map RAtom.lower) (s.data.map Char.toLower) = true ↔ _
  rw [List.map_map, lowerAtoms_lits, searchR_lits]

lemma fieldRegexMatches_lits (q : String) (v : Option String) (hq : q ≠ "")
    (h : ∀ c ∈ q.data, isRegexMeta c = false) :
    fieldRegexMatches q v = ciContains q (v.getD "") := by
  have hqd : q.data ≠ [] := fun hd => hq (String.ext hd)
  cases v with
  | none =>
    have : ciContains q "" = false := by
      rw [Bool.eq_false_iff]
      intro hcc
      rw [ciContains_iff] at hcc
      have : q.data.map Char.toLower = [] := by
        simpa [List.infix_nil] using hcc
      exact hqd (List.map_eq_nil_iff.mp this)
    simp [fieldRegexMatches, this]
  | some s =>
    rw [Option.getD_some]
    show regexSearchCI q s = ciContains q s
    exact regexSearchCI_lits q s h

/-- Claim C5 (amended): with a non-empty free-text query `q` free of regex
metacharacters, a record matches the constructed filter exactly when `q`
occurs case-insensitively as a substring of its phone, note or country
(missing fields never match).  For queries containing metacharacters the
claim as stated fails, see the counterexample. -/
theorem claim_C5_text_search (q : String) (d : PhoneDoc) (hq : q ≠ "")
    (h : ∀ c ∈ q.data, isRegexMeta c = false) :
    filterMatches (buildFilter none (some q)) d = specTextMatch q d := by
  have htr : truthyOpt (some q) = true := by
    simp [truthyOpt]
    exact hq
  simp [filterMatches, buildFilter, truthyOpt, specTextMatch, htr, hq,
    fieldRegexMatches_lits _ _ hq h]

/-- Claim C5, counterexample to the claim as stated: the query is passed to
the store as an unescaped case-insensitive regex, so the metacharacter query
consisting of a single dot matches a record whose phone is "555" even though
a dot occurs in none of its fields. -/
theorem claim_C5_counterexample :
    filterMatches (buildFilter none (some "."))
        { oid := "a", phone := some "555", country := none, status := none,
          note := none, created_at := none, updated_at := none } = true ∧
      specTextMatch "."
        { oid := "a", phone := some "555", country := none, status := none,
          note := none, created_at := none, updated_at := none } = false := by
  decide

/-- Claim C5, witness: the amended theorem applied to the concrete
metacharacter-free query "555" and a record carrying it in the note field. -/
theorem claim_C5_witness :
    (("555" : String) ≠ "" ∧ ∀ c ∈ ("555" : String).data, isRegexMeta c = false) ∧
      filterMatches (buildFilter none (some "555"))
          { oid := "b", phone := some "123", country := none, status := none,
            note := some "call 555 back", created_at := none, updated_at := none } =
        specTextMatch "555"
          { oid := "b", phone := some "123", country := none, status := none,
            note := some "call 555 back", created_at := none, updated_at := none } :=
  ⟨⟨by decide, by decide⟩,
    claim_C5_text_search "555" _ (by decide) (by decide)⟩

lemma length_filter_not_split {α : Type} (p : α → Bool) (l : List α) :
    (l.filter p).length + (l.filter (fun a => !p a)).length = l.length := by
  induction l with
  | nil => simp
  | cons a l ih =>
    by_cases h : p a = true <;>
      simp [List.filter_cons, h, ih] <;> omega

lemma bulkLoop_spec (v : PhoneIn → Bool) (now : Nat) :
    ∀ (items : List PhoneIn) (st : Store),
      ∃ ds, (bulkLoop v now items st).2.docs = st.docs ++ ds ∧
        ds.map docContent = (items.filter v).map itemContent ∧
        (bulkLoop v now items st).1.length = (items.filter v).length := by
  intro items
  induction items with
  | nil => intro st; exact ⟨[], by simp [bulkLoop]⟩
  | cons item rest ih =>
    intro st
    by_cases hv : v item = true
    · obtain ⟨ds, h1, h2, h3⟩ := ih (create_document st item now).2
      refine ⟨docOfPhoneIn (toString st.nextId) item now :: ds, ?_, ?_, ?_⟩
      · simp only [bulkLoop, hv, if_true]
        rw [h1]
        simp [create_document, List.append_assoc]
      · simp [List.filter_cons, hv, h2, docContent, itemContent, docOfPhoneIn]
      · simp only [bulkLoop, hv, if_true, List.length_cons, List.filter_cons]
        simp [h3]
    · obtain ⟨ds, h1, h2, h3⟩ := ih st
      exact ⟨ds, by simpa [bulkLoop, hv] using h1,
        by simpa [List.filter_cons, hv] using h2,
        by simpa [bulkLoop, List.filter_cons, hv] using h3⟩

/-- Claim C1: a bulk create of N items of which exactly K fail validation or
insertion answers OK with exactly N−K inserted ids, count equal to the number
of ids, no error surfaced, and the store extended in place — the previous
documents stay as a prefix and the N−K valid items' contents are appended in
order, so valid items inserted before a failing one are not rolled back. -/
theorem claim_C1_bulk_insert (st : Store) (schemaValid : PhoneIn → Bool)
    (items : List PhoneIn) (now K : Nat)
    (hK : (items.filter (fun i => !schemaValid i)).length = K) :
    ∃ ids st', add_phones_bulk (some st) schemaValid items now =
        Except.ok ((ids, ids.length), st') ∧
      ids.length = items.length - K ∧
      st'.docs.length = st.docs.length + (items.length - K) ∧
      st.docs <+: st'.docs ∧
      (st'.docs.drop st.docs.length).map docContent =
        (items.filter schemaValid).map itemContent := by
  obtain ⟨ds, h1, h2, h3⟩ := bulkLoop_spec schemaValid now items st
  have hsplit := length_filter_not_split schemaValid items
  have hlen : (items.filter schemaValid).length = items.length - K := by omega
  have hds : ds.length = (items.filter schemaValid).length := by
    have := congrArg List.length h2
    simpa [List.length_map] using this
  refine ⟨(bulkLoop schemaValid now items st).1,
    (bulkLoop schemaValid now items st).2, ?_, ?_, ?_, ?_, ?_⟩
  · rfl
  · rw [h3, hlen]
  · rw [h1]
    simp [hds, hlen]
  · rw [h1]
    exact List.prefix_append _ _
  · rw [h1, List.drop_left, h2]

/-- Claim C1, witness: a concrete batch of three items whose middle item fails
validation yields two inserted ids on a store that keeps both valid items. -/
theorem claim_C1_witness :
    (exItems.filter (fun i => !exValid i)).length = 1 ∧
      ∃ ids st',
        add_phones_bulk (some emptyStore) exValid exItems 7 =
          Except.ok ((ids, ids.length), st') ∧
        ids.length = exItems.length - 1 ∧
        st'.docs.length = emptyStore.docs.length + (exItems.length - 1) ∧
        emptyStore.docs <+: st'.docs ∧
        (st'.docs.drop emptyStore.docs.length).map docContent =
          (exItems.filter exValid).map itemContent :=
  ⟨by decide, claim_C1_bulk_insert emptyStore exValid exItems 7 1 (by decide)⟩

/-- Claim C2: an update whose effective field set is empty, on a well-formed
id, returns zero changes and leaves the whole store — every record and its
`updated_at` included — unchanged, performing no store write. -/
theorem claim_C2_empty_update (st : Store) (item_id : String) (data : PhoneUpdate)
    (now : Nat) (hid : isValidObjectId item_id = true)
    (hemp : hasUpdateFields data = false) :
    update_phone (some st) true item_id data now = Except.ok (0, st) := by
  simp [update_phone, hid, hemp]

/-- Claim C2, witness: the empty update applied to a store holding one record
with an existing `updated_at` hands the store back untouched. -/
theorem claim_C2_witness :
    isValidObjectId exOid = true ∧
      hasUpdateFields emptyPatch = false ∧
      update_phone (some exStore1) true exOid emptyPatch 99 =
        Except.ok (0, exStore1) :=
  ⟨by decide, by decide,
    claim_C2_empty_update exStore1 exOid emptyPatch 99 (by decide) (by decide)⟩

/-- Claim C3: an update or delete whose id is not a valid store identifier
fails with the client error "Invalid id" (status 400), an error value distinct
from the store-unavailable server error, before any store access — the store
is not consulted and no success (hence no "not found" zero-count) is
produced. -/
theorem claim_C3_invalid_id (st : Store) (item_id : String) (data : PhoneUpdate)
    (now : Nat) (hid : isValidObjectId item_id = false) :
    update_phone (some st) true item_id data now =
        Except.error (ApiError.httpException 400 "Invalid id") ∧
      delete_phone (some st) true item_id =
        Except.error (ApiError.httpException 400 "Invalid id") ∧
      (ApiError.httpException 400 "Invalid id" ≠
        ApiError.httpException 500 "Database not available") := by
  refine ⟨?_, ?_, by decide⟩ <;> simp [update_phone, delete_phone, hid]

/-- Claim C3, witness: the malformed id "nope" is rejected by both update and
delete on a concrete store. -/
theorem claim_C3_witness :
    isValidObjectId "nope" = false ∧
      (update_phone (some emptyStore) true "nope" phonePatch 3 =
        Except.error (ApiError.httpException 400 "Invalid id") ∧
      delete_phone (some emptyStore) true "nope" =
        Except.error (ApiError.httpException 400 "Invalid id") ∧
      (ApiError.httpException 400 "Invalid id" ≠
        ApiError.httpException 500 "Database not available")) :=
  ⟨by decide, claim_C3_invalid_id emptyStore "nope" phonePatch 3 (by decide)⟩

/-- Claim C4: a single create whose candidate fails the insert-time schema
validation surfaces the validation failure as an error to the caller — the
handler answers no id and the item is not silently skipped, unlike the bulk
path. -/
theorem claim_C4_single_create (st : Store) (schemaValid : PhoneIn → Bool)
    (item : PhoneIn) (now : Nat) (hv : schemaValid item = false) :
    add_phone (some st) schemaValid item now =
      Except.error ApiError.validationError := by
  simp [add_phone, hv]

/-- Claim C4, witness: a concrete candidate rejected by the schema produces
the validation error. -/
theorem claim_C4_witness :
    exValid exPhoneBad = false ∧
      add_phone (some emptyStore) exValid exPhoneBad 4 =
        Except.error ApiError.validationError :=
  ⟨by decide, claim_C4_single_create emptyStore exValid exPhoneBad 4 (by decide)⟩

lemma updateFirst_spec (u : UpdateDoc) (oid : String) :
    ∀ ds : List PhoneDoc, (ds.map (fun d => d.oid)).Nodup →
      ((updateFirst oid u ds).1 = 0 ∨ (updateFirst oid u ds).1 = 1) ∧
      ((updateFirst oid u ds).1 = 1 ↔ ∃ d ∈ ds, d.oid = oid ∧ applySet u d ≠ d) ∧
      (∀ d' ∈ (updateFirst oid u ds).2, d'.oid = oid →
        ∃ d ∈ ds, d.oid = oid ∧ d' = applySet u d) := by
  intro ds
  induction ds with
  | nil =>
    intro _
    exact ⟨Or.inl rfl, by simp [updateFirst], by simp [updateFirst]⟩
  | cons d rest ih =>
    intro hnd
    rw [List.map_cons, List.nodup_cons] at hnd
    obtain ⟨hnotin, hnd'⟩ := hnd
    by_cases hd : d.oid = oid
    · have hrest : ∀ x ∈ rest, ¬(x.oid = oid) := by
        intro x hx he
        apply hnotin
        rw [hd, ← he]
        exact List.mem_map_of_mem (fun y => y.oid) hx
      have e2 : (updateFirst oid u (d :: rest)).2 = applySet u d :: rest := by
        simp [updateFirst, hd]
      by_cases hch : applySet u d = d
      · have e1 : (updateFirst oid u (d :: rest)).1 = 0 := by
          simp [updateFirst, hd, hch]
        refine ⟨Or.inl e1, ?_, ?_⟩
        · rw [e1]
          constructor
          · intro h0; exact absurd h0 (by norm_num)
          · rintro ⟨x, hx, hxo, hne⟩
            rcases List.mem_cons.mp hx with rfl | hx'
            · exact absurd hch hne
            · exact absurd hxo (hrest x hx')
        · intro d' hd' hdo
          rw [e2] at hd'
          rcases List.mem_cons.mp hd' with rfl | h'
          · exact ⟨d, List.mem_cons_self d rest, hd, rfl⟩
          · exact absurd hdo (hrest d' h')
      · have e1 : (updateFirst oid u (d :: rest)).1 = 1 := by
          simp [updateFirst, hd, hch]
        refine ⟨Or.inr e1, ?_, ?_⟩
        · rw [e1]
          exact ⟨fun _ => ⟨d, List.mem_cons_self d rest, hd, hch⟩, fun _ => rfl⟩
        · intro d' hd' hdo
          rw [e2] at hd'
          rcases List.mem_cons.mp hd' with rfl | h'
          · exact ⟨d, List.mem_cons_self d rest, hd, rfl⟩
          · exact absurd hdo (hrest d' h')
    · obtain ⟨c1, c2, c3⟩ := ih hnd'
      have e1 : (updateFirst oid u (d :: rest)).1 = (updateFirst oid u rest).1 := by
        simp [updateFirst, hd]
      have e2 : (updateFirst oid u (d :: rest)).2 = d :: (updateFirst oid u rest).2 := by
        simp [updateFirst, hd]
      refine ⟨by rw [e1]; exact c1, ?_, ?_⟩
      · rw [e1, c2]
        constructor
        · rintro ⟨x, hx, hxo, hne⟩
          exact ⟨x, List.mem_cons_of_mem _ hx, hxo, hne⟩
        · rintro ⟨x, hx, hxo, hne⟩
          rcases List.mem_cons.mp hx with rfl | hx'
          · exact absurd hxo hd
          · exact ⟨x, hx', hxo, hne⟩
      · intro d' hd' hdo
        rw [e2] at hd'
        rcases List.mem_cons.mp hd' with rfl | h'
        · exact absurd hdo hd
        · obtain ⟨x, hx, hxo, he⟩ := c3 d' h' hdo
          exact ⟨x, List.mem_cons_of_mem _ hx, hxo, he⟩

/-- Claim C6: an update with a well-formed id and a non-empty field set
answers OK with the store's literal modified count (0 or 1, with no
synthesized "not found" error), the count is 1 exactly when the addressed
document exists and the write changes it, and after the operation every
document carrying the addressed id has `updated_at` equal to the current time
set by the same single write. -/
theorem claim_C6_update_nonempty (st : Store) (item_id : String)
    (data : PhoneUpdate) (now : Nat) (hid : isValidObjectId item_id = true)
    (hne : hasUpdateFields data = true)
    (hnd : (st.docs.map (fun d => d.oid)).Nodup) :
    ∃ r st', update_phone (some st) true item_id data now = Except.ok (r, st') ∧
      (r = 0 ∨ r = 1) ∧
      (r = 1 ↔ ∃ d ∈ st.docs, d.oid = item_id ∧
        applySet (updateDocOf data now) d ≠ d) ∧
      (∀ d' ∈ st'.docs, d'.oid = item_id → d'.updated_at = some now) := by
  obtain ⟨c1, c2, c3⟩ := updateFirst_spec (updateDocOf data now) item_id st.docs hnd
  refine ⟨(updateFirst item_id (updateDocOf data now) st.docs).1,
    { docs := (updateFirst item_id (updateDocOf data now) st.docs).2,
      nextId := st.nextId }, ?_, c1, c2, ?_⟩
  · simp [update_phone, hid, hne]
  · intro d' hd' hdo
    obtain ⟨d, _, _, he⟩ := c3 d' hd' hdo
    rw [he]
    simp [applySet, updateDocOf]

/-- Claim C6, witness: updating the phone field of the one stored record sets
its `updated_at` to the request time and reports the store's count. -/
theorem claim_C6_witness :
    isValidObjectId exOid = true ∧ hasUpdateFields phonePatch = true ∧
      (exStore1.docs.map (fun d => d.oid)).Nodup ∧
      ∃ r st', update_phone (some exStore1) true exOid phonePatch 42 =
          Except.ok (r, st') ∧
        (r = 0 ∨ r = 1) ∧
        (r = 1 ↔ ∃ d ∈ exStore1.docs, d.oid = exOid ∧
          applySet (updateDocOf phonePatch 42) d ≠ d) ∧
        (∀ d' ∈ st'.docs, d'.oid = exOid → d'.updated_at = some 42) :=
  ⟨by decide, by decide, by decide,
    claim_C6_update_nonempty exStore1 exOid phonePatch 42
      (by decide) (by decide) (by decide)⟩

lemma csvField_plain (s : String) (h : csvNeedsQuote s = false) : csvField s = s := by
  simp [csvField, h]

lemma csvRow_plain (d : PhoneDoc) (h : ∀ s ∈ exportCells d, csvNeedsQuote s = false) :
    csvRow (exportCells d) = plainRow d := by
  have h1 := h (d.phone.getD "") (by simp [exportCells])
  have h2 := h (d.country.getD "") (by simp [exportCells])
  have h3 := h (d.status.getD "") (by simp [exportCells])
  have h4 := h (d.note.getD "") (by simp [exportCells])
  simp [csvRow, exportCells, csvJoin, plainRow, csvField_plain, h1, h2, h3, h4,
    String.append_assoc]

/-- Claim C7: an export answers a CSV whose header row is exactly the four
columns phone, country, status, note, followed by one data row per record
matching the status/query filter over the whole collection (no limit), with
every missing field rendered as the empty string.  Stated for stores whose
cells need no CSV quoting, so each row is the plain comma-join of the four
rendered cells. -/
theorem claim_C7_export (st : Store) (status q : Option String)
    (h : ∀ d ∈ st.docs, ∀ s ∈ exportCells d, csvNeedsQuote s = false) :
    export_phones (some st) status q = Except.ok
      ("phone,country,status,note\r\n" ++
        String.join ((st.docs.filter
          (filterMatches (buildFilter status q))).map plainRow)) := by
  have hhead : csvRow ["phone", "country", "status", "note"] =
      "phone,country,status,note\r\n" := by decide
  have hrows : (st.docs.filter (filterMatches (buildFilter status q))).map
        (fun r => csvRow (exportCells r)) =
      (st.docs.filter (filterMatches (buildFilter status q))).map plainRow := by
    apply List.map_congr_left
    intro d hd
    exact csvRow_plain d (h d (List.mem_of_mem_filter hd))
  simp only [export_phones]
  rw [hhead, hrows]

/-- Claim C7, witness: exporting a two-record store with the has_fb status
filter yields the header plus exactly the matching record's row, its missing
note rendered empty. -/
theorem claim_C7_witness :
    (∀ d ∈ exStore2.docs, ∀ s ∈ exportCells d, csvNeedsQuote s = false) ∧
      export_phones (some exStore2) (some "has_fb") none = Except.ok
        ("phone,country,status,note\r\n" ++
          String.join ((exStore2.docs.filter
            (filterMatches (buildFilter (some "has_fb") none))).map plainRow)) :=
  ⟨by decide, claim_C7_export exStore2 (some "has_fb") none (by decide)⟩

/-- Claim C8: when the store handle was never established, every data-touching
endpoint — list, create single, create bulk, update, delete, export — fails
with the store-unavailable server error and performs no domain operation. -/
theorem claim_C8_store_unavailable (schemaValid : PhoneIn → Bool)
    (status q : Option String) (limit : Nat) (item : PhoneIn)
    (items : List PhoneIn) (item_id : String) (data : PhoneUpdate) (now : Nat)
    (oidAvail : Bool) :
    list_phones none status q limit =
        Except.error (ApiError.httpException 500 "Database not available") ∧
      add_phone none schemaValid item now =
        Except.error (ApiError.httpException 500 "Database not available") ∧
      add_phones_bulk none schemaValid items now =
        Except.error (ApiError.httpException 500 "Database not available") ∧
      update_phone none oidAvail item_id data now =
        Except.error (ApiError.httpException 500 "Database not available") ∧
      delete_phone none oidAvail item_id =
        Except.error (ApiError.httpException 500 "Database not available") ∧
      export_phones none status q =
        Except.error (ApiError.httpException 500 "Database not available") :=
  ⟨rfl, rfl, rfl, rfl, rfl, rfl⟩

lemma buildFilter_status_empty (q : Option String) :
    buildFilter (some "") q = buildFilter none q := rfl

lemma buildFilter_q_empty (s : Option String) :
    buildFilter s (some "") = buildFilter s none := rfl

/-- Claim C9: supplying the status or free-text query parameter as the empty
string is the same as omitting it — Python truthiness drops the filter clause,
so the listing and the export answer exactly the unfiltered result for that
parameter. -/
theorem claim_C9_empty_params (db : Option Store) (s q : Option String)
    (limit : Nat) :
    list_phones db (some "") q limit = list_phones db none q limit ∧
      list_phones db s (some "") limit = list_phones db s none limit ∧
      export_phones db (some "") q = export_phones db none q ∧
      export_phones db s (some "") = export_phones db s none := by
  cases db <;>
    simp [list_phones, export_phones, buildFilter_status_empty, buildFilter_q_empty]

/-- Claim C10: a field supplied as null in the update body parses exactly like
an omitted field — both are excluded from the effective update set — and a
field of a stored record ends up absent after a write only when it was absent
before and not supplied, so an update can never clear a stored field to
null. -/
theorem claim_C10_null_equals_absent (b : PhoneUpdateBody) (data : PhoneUpdate)
    (d : PhoneDoc) (now : Nat) :
    parsePhoneUpdate { b with phone := JsonField.null } =
        parsePhoneUpdate { b with phone := JsonField.absent } ∧
      parsePhoneUpdate { b with country := JsonField.null } =
        parsePhoneUpdate { b with country := JsonField.absent } ∧
      parsePhoneUpdate { b with status := JsonField.null } =
        parsePhoneUpdate { b with status := JsonField.absent } ∧
      parsePhoneUpdate { b with note := JsonField.null } =
        parsePhoneUpdate { b with note := JsonField.absent } ∧
      ((applySet (updateDocOf data now) d).phone = none ↔
        data.phone = none ∧ d.phone = none) ∧
      ((applySet (updateDocOf data now) d).country = none ↔
        data.country = none ∧ d.country = none) ∧
      ((applySet (updateDocOf data now) d).status = none ↔
        data.status = none ∧ d.status = none) ∧
      ((applySet (updateDocOf data now) d).note = none ↔
        data.note = none ∧ d.note = none) := by
  refine ⟨rfl, rfl, rfl, rfl, ?_, ?_, ?_, ?_⟩
  · rcases hp : data.phone <;> simp [applySet, updateDocOf, hp]
  · rcases hp : data.country <;> simp [applySet, updateDocOf, hp]
  · rcases hp : data.status <;> simp [applySet, updateDocOf, hp]
  · rcases hp : data.note <;> simp [applySet, updateDocOf, hp]
